import Mathlib

/-!
Shallow embedding of the process-supervision core of the zerobyte_tauri
repository, together with theorems checking the natural-language
specification against it.

The embedded code comes from three Rust sources:
* `src-tauri/src/bin/zerobyte-service.rs` — the Windows-service supervisor
  (`run_service`, `wait_for_shutdown_or_crash`, `start_server_process`,
  `stop_server_gracefully`);
* `src-tauri/src/lib.rs` — the desktop sidecar supervisor
  (`wait_for_server`, `start_sidecar`, `stop_sidecar`);
* `src-tauri/src/commands/service.rs` — the privileged lifecycle commands
  (`execute_elevated_script`, `install_service`, `uninstall_service`,
  `start_service`, `stop_service`).

External effects (HTTP probes, process spawning, channel polling, the OS
process table, the filesystem) are made explicit inputs: each embedded
function takes the outcome of every external interaction it performs as a
parameter and returns a trace record of the observable actions it takes
(requests sent, sleeps performed, kills issued, files removed).
-/

namespace Zerobyte

/-! ### zerobyte-service.rs: constants -/

/-- `MAX_RESTART_ATTEMPTS` in `zerobyte-service.rs` (line 27). -/
def MAX_RESTART_ATTEMPTS : Nat := 3

/-- `RESTART_DELAY_SECS` in `zerobyte-service.rs` (line 28). -/
def RESTART_DELAY_SECS : Nat := 5

/-! ### zerobyte-service.rs: `wait_for_shutdown_or_crash` (lines 287–315)

Each loop iteration performs a non-blocking `try_recv` on the shutdown
channel and then a `try_wait` on the child process.  `SignalPoll` is the
outcome of the `try_recv`, `ProcPoll` the outcome of the `try_wait`. -/

/-- Outcome of `shutdown_rx.try_recv()`: a signal value was received, the
sender was dropped (`TryRecvError::Disconnected`), or the channel was empty
(`TryRecvError::Empty`). -/
inductive SignalPoll
  | received
  | disconnected
  | empty
deriving DecidableEq, Repr

/-- Outcome of `server_process.try_wait()`: the child exited with an
optional exit code, the child is still running, or the status query itself
failed with an I/O error. -/
inductive ProcPoll
  | exited (code : Option Int)
  | stillRunning
  | checkError
deriving DecidableEq, Repr

/-- The `ServerEvent` enum of `zerobyte-service.rs` (lines 197–200). -/
inductive ServerEvent
  | Shutdown
  | Crashed (code : Option Int)
deriving DecidableEq, Repr

/-- One iteration of the body of `wait_for_shutdown_or_crash`
(lines 291–314): first the shutdown channel is polled without blocking —
a received value or a disconnected channel returns `Shutdown` at once —
and only if the channel was empty is the child's exit status polled.
`none` means the iteration observed a still-running child and sleeps. -/
def waitStep (sig : SignalPoll) (proc : ProcPoll) : Option ServerEvent :=
  match sig with
  | .received => some .Shutdown
  | .disconnected => some .Shutdown
  | .empty =>
    match proc with
    | .exited c => some (.Crashed c)
    | .stillRunning => none
    | .checkError => some (.Crashed none)

/-- `wait_for_shutdown_or_crash` over a finite schedule of poll outcomes,
one pair per loop iteration; `none` means the schedule was exhausted with
the child still running (the real loop would keep monitoring). -/
def wait_for_shutdown_or_crash : List (SignalPoll × ProcPoll) → Option ServerEvent
  | [] => none
  | (s, p) :: rest =>
    match waitStep s p with
    | some ev => some ev
    | none => wait_for_shutdown_or_crash rest

/-! ### zerobyte-service.rs: `run_service` main loop (lines 126–165)

The loop state is `restart_count` (starting at 0).  Each iteration consumes
one `ServerEvent`; on a crash the counter is incremented, and if it does
not exceed `MAX_RESTART_ATTEMPTS` the supervisor sleeps the backoff delay
and re-invokes `start_server_process`, whose success or failure is an
input.  The loop exits on a shutdown signal, on exceeding the restart
bound, or on a failed relaunch. -/

/-- Input for one main-loop iteration: the event reported by
`wait_for_shutdown_or_crash`, and — relevant only when a restart is
attempted — whether `start_server_process` succeeds. -/
inductive LoopInput
  | shutdown
  | crashed (code : Option Int) (restartOk : Bool)
deriving DecidableEq, Repr

/-- Reason for which the `run_service` main loop exited. -/
inductive LoopExit
  | stoppedByShutdown
  | failedMaxRestarts
  | failedRestartLaunch
deriving DecidableEq, Repr

/-- Status of the main loop after consuming a finite input schedule:
either it is still monitoring a running child, or it exited. -/
inductive LoopStatus
  | running
  | exited (e : LoopExit)
deriving DecidableEq, Repr

/-- The `run_service` main loop (lines 126–165): from a current
`restart_count` and a schedule of inputs, returns the loop status, the
final `restart_count`, and the number of restart attempts made (the number
of invocations of `start_server_process`). -/
def run_service_loop : Nat → List LoopInput → LoopStatus × Nat × Nat
  | n, [] => (LoopStatus.running, n, 0)
  | n, LoopInput.shutdown :: _ => (LoopStatus.exited LoopExit.stoppedByShutdown, n, 0)
  | n, LoopInput.crashed _ ok :: rest =>
    if MAX_RESTART_ATTEMPTS < n + 1 then
      (LoopStatus.exited LoopExit.failedMaxRestarts, n + 1, 0)
    else if ok then
      let r := run_service_loop (n + 1) rest
      (r.1, r.2.1, r.2.2 + 1)
    else
      (LoopStatus.exited LoopExit.failedRestartLaunch, n + 1, 1)

/-! ### lib.rs: `wait_for_server` (lines 47–79)

The readiness poller: `for attempt in 1..=max_attempts`, probe the
healthcheck endpoint; on the first success return `true` immediately
(no further probes); otherwise sleep 500 ms and continue; return `false`
after the last attempt.  `probe k` is the outcome of the `k`-th probe.
The identically structured inline loop of `start_server_process`
(`zerobyte-service.rs` lines 270–282, `for attempt in 1..=30`) is embedded
through the same function.  The embedding returns the result together with
the number of probes actually issued. -/

/-- The probing loop from attempt number `attempt` with `rem` attempts
remaining: returns the result and the number of probes issued. -/
def wait_for_server_from (probe : Nat → Bool) : Nat → Nat → Bool × Nat
  | _, 0 => (false, 0)
  | attempt, rem + 1 =>
    if probe attempt then (true, 1)
    else
      let r := wait_for_server_from probe (attempt + 1) rem
      (r.1, r.2 + 1)

/-- `wait_for_server` (lib.rs lines 47–79): attempts are numbered
`1..=max_attempts`. -/
def wait_for_server (probe : Nat → Bool) (max_attempts : Nat) : Bool × Nat :=
  wait_for_server_from probe 1 max_attempts

theorem wait_for_server_from_snd_le (probe : Nat → Bool) (rem a : Nat) :
    (wait_for_server_from probe a rem).2 ≤ rem := by
  induction rem generalizing a with
  | zero => simp [wait_for_server_from]
  | succ r ih =>
    by_cases h : probe a
    · simp [wait_for_server_from, h]
    · simp only [wait_for_server_from, h, if_false, Bool.false_eq_true]
      exact Nat.succ_le_succ (ih (a + 1))

theorem wait_for_server_from_all_false (probe : Nat → Bool) (rem a : Nat)
    (h : ∀ k, a ≤ k → k < a + rem → probe k = false) :
    wait_for_server_from probe a rem = (false, rem) := by
  induction rem generalizing a with
  | zero => simp [wait_for_server_from]
  | succ r ih =>
    have ha : probe a = false := h a le_rfl (by omega)
    simp only [wait_for_server_from, ha, Bool.false_eq_true, if_false]
    rw [ih (a + 1) (fun k hk1 hk2 => h k (by omega) (by omega))]

theorem wait_for_server_from_first_true (probe : Nat → Bool) (rem a j : Nat)
    (ha : a ≤ j) (hj : j < a + rem) (ht : probe j = true)
    (hf : ∀ k, a ≤ k → k < j → probe k = false) :
    wait_for_server_from probe a rem = (true, j + 1 - a) := by
  induction rem generalizing a with
  | zero => omega
  | succ r ih =>
    by_cases hja : j = a
    · subst hja
      simp [wait_for_server_from, ht]
    · have hfa : probe a = false := hf a le_rfl (by omega)
      simp only [wait_for_server_from, hfa, Bool.false_eq_true, if_false]
      rw [ih (a + 1) (by omega) (by omega) (fun k hk1 hk2 => hf k (by omega) hk2)]
      have : j + 1 - (a + 1) + 1 = j + 1 - a := by omega
      rw [this]

/-! ### zerobyte-service.rs: `stop_server_gracefully` (lines 317–349)

The function builds a blocking HTTP client; if the build succeeds it sends
a POST to the shutdown endpoint — logging either outcome — and sleeps the
3-second grace period; if the build fails neither happens.  It then calls
`try_wait`: on `Ok(Some _)` nothing more is done; on `Ok(None)` it calls
`kill()` followed by `wait()`; on `Err _` it calls `kill()` without a
`wait()`. -/

/-- Outcome of the `try_wait` performed after the grace period. -/
inductive TryWaitResult
  | exited
  | stillRunning
  | errored
deriving DecidableEq, Repr

/-- Observable actions of one `stop_server_gracefully` run. -/
structure GracefulStopTrace where
  /-- a shutdown POST was issued (its response, success or failure, is only
  logged and never branched on) -/
  requestSent : Bool
  /-- seconds slept between the request and the exit check -/
  graceWaitSecs : Nat
  /-- `try_wait` was consulted before any forced termination -/
  exitChecked : Bool
  /-- `kill()` was called on the child -/
  killIssued : Bool
  /-- a blocking `wait()` (reap, no timeout) followed the `kill()` -/
  reaped : Bool
deriving DecidableEq, Repr

/-- `stop_server_gracefully` (lines 317–349).  `clientOk` is whether the
HTTP client builds; `sendOk` is whether the shutdown POST returned `Ok` —
it is matched only to pick a log message, so it affects nothing observable;
`tw` is the `try_wait` outcome. -/
def stop_server_gracefully (clientOk : Bool) (sendOk : Bool) (tw : TryWaitResult) :
    GracefulStopTrace :=
  let requestSent := clientOk
  let graceWaitSecs := if clientOk then 3 else 0
  let _ := sendOk
  match tw with
  | .exited =>
    { requestSent, graceWaitSecs, exitChecked := true, killIssued := false, reaped := false }
  | .stillRunning =>
    { requestSent, graceWaitSecs, exitChecked := true, killIssued := true, reaped := true }
  | .errored =>
    { requestSent, graceWaitSecs, exitChecked := true, killIssued := true, reaped := false }

/-! ### lib.rs: `AppState`, `stop_sidecar` (lines 14–31, 199–229) -/

/-- The supervisor-relevant fields of `AppState` (lib.rs lines 14–21):
`using_service` records attachment to the external Windows-service
instance; `hasChild` is whether `sidecar_handle` currently holds
`Some child`; `backendPort` is `backend_port`. -/
structure AppState where
  usingService : Bool
  hasChild : Bool
  backendPort : Nat
deriving DecidableEq, Repr

/-- Observable actions of one `stop_sidecar` run. -/
structure SidecarStopTrace where
  /-- the function returned `Ok(())` (every path in the source does) -/
  outcomeOk : Bool
  /-- `request_graceful_shutdown` was invoked -/
  requestSent : Bool
  /-- seconds slept between the graceful request and the kill -/
  graceWaitSecs : Nat
  /-- `child.kill()` was called -/
  killIssued : Bool
  /-- a blocking wait for exit confirmation followed the kill (the source
  contains no such wait: `kill()` is the last action on the handle) -/
  waitedForExit : Bool
deriving DecidableEq, Repr

/-- `stop_sidecar` (lib.rs lines 199–229).  If `using_service` is set,
return `Ok` at once.  Otherwise `take()` the handle: if a child was held,
call `request_graceful_shutdown` — `gracefulResult` is its return value —
sleep 2 s only when it returned `true`, then unconditionally `kill()`; if
no child was held, return `Ok` having done nothing.  Returns the state
after the run (the handle is emptied by `take()`). -/
def stop_sidecar (st : AppState) (gracefulResult : Bool) : AppState × SidecarStopTrace :=
  if st.usingService then
    (st, { outcomeOk := true, requestSent := false, graceWaitSecs := 0,
           killIssued := false, waitedForExit := false })
  else if st.hasChild then
    ({ st with hasChild := false },
     { outcomeOk := true, requestSent := true,
       graceWaitSecs := if gracefulResult then 2 else 0,
       killIssued := true, waitedForExit := false })
  else
    (st, { outcomeOk := true, requestSent := false, graceWaitSecs := 0,
           killIssued := false, waitedForExit := false })

/-! ### zerobyte-service.rs: `start_server_process` (lines 242–285)

Spawns the child, then probes `/healthcheck` up to 30 times (500 ms apart)
with the same loop shape as `wait_for_server`; returns `Ok(child)` on the
first successful probe and `Err` after 30 failures.  On the error path the
spawned `Child` is dropped without any `kill()`. -/

/-- Observable outcome of one `start_server_process` run. -/
structure StartProcTrace where
  /-- the child process was spawned -/
  spawned : Bool
  /-- number of readiness probes issued -/
  probesIssued : Nat
  /-- the function returned `Ok(child)` -/
  ok : Bool
  /-- the spawned child was terminated before returning (no path in the
  source does this) -/
  killIssued : Bool
deriving DecidableEq, Repr

/-- `start_server_process` (lines 242–285): `spawnOk` is whether log-file
creation and `Command::spawn` succeed; `probe k` is the outcome of the
`k`-th readiness probe. -/
def start_server_process (spawnOk : Bool) (probe : Nat → Bool) : StartProcTrace :=
  if spawnOk then
    let r := wait_for_server probe 30
    { spawned := true, probesIssued := r.2, ok := r.1, killIssued := false }
  else
    { spawned := false, probesIssued := 0, ok := false, killIssued := false }

/-! ### lib.rs: `start_sidecar` (lines 104–196, release configuration)

The release (`not(debug_assertions)`) flow: (1) if the Windows service
answers the healthcheck on port 4097, record service mode and return
`Ok(4097)` without spawning; (2) if a quick `wait_for_server(4096, 2)`
succeeds, return `Ok(4096)` without spawning; (3) spawn the sidecar and
store the handle in `state.sidecar_handle`; (4) `wait_for_server(4096,30)`
— failure returns `Err` with the child neither killed nor removed from the
state; success returns `Ok(4096)`.  (The debug configuration differs only
in using 30 attempts for step 2.) -/

/-- Observable outcome of one `start_sidecar` run. -/
structure StartSidecarTrace where
  /-- `Ok(port)` on success, `none` for the error return -/
  result : Option Nat
  /-- the sidecar child was spawned -/
  spawnedChild : Bool
  /-- the spawned child was terminated before returning (no path in the
  source does this) -/
  killedChild : Bool
  /-- the `AppState` when the function returns -/
  stateAfter : AppState
deriving DecidableEq, Repr

/-- `start_sidecar` (lib.rs lines 104–196): `serviceRunning` is the result
of `is_service_running()`; `preProbe` feeds the quick already-running
check; `spawnOk` is whether resource-dir lookup and `spawn()` succeed;
`readyProbe` feeds the 30-attempt readiness poll. -/
def start_sidecar (st : AppState) (serviceRunning : Bool) (preProbe : Nat → Bool)
    (spawnOk : Bool) (readyProbe : Nat → Bool) : StartSidecarTrace :=
  if serviceRunning then
    { result := some 4097, spawnedChild := false, killedChild := false,
      stateAfter := { st with usingService := true, backendPort := 4097 } }
  else if (wait_for_server preProbe 2).1 then
    { result := some 4096, spawnedChild := false, killedChild := false, stateAfter := st }
  else if spawnOk then
    let stSpawned := { st with hasChild := true }
    if (wait_for_server readyProbe 30).1 then
      { result := some 4096, spawnedChild := true, killedChild := false,
        stateAfter := stSpawned }
    else
      { result := none, spawnedChild := true, killedChild := false,
        stateAfter := stSpawned }
  else
    { result := none, spawnedChild := false, killedChild := false, stateAfter := st }

/-! ### commands/service.rs: the privileged lifecycle commands

`execute_elevated_script` (lines 18–59) writes a batch script into the
temp directory, requests elevated execution, polls the operation's log
file up to 10 times for a success or error marker, and finally re-reads
the log: an `ERROR:` marker yields `Err`, otherwise `Ok`.  No path removes
the script or the log.  Each of the four commands first deletes the
previous run's log file, builds its script, runs it through
`execute_elevated_script`, then re-queries the service status and fails if
it does not match the operation's expected end state. -/

/-- Outcome of the `run_elevated` / `ShellExecuteW` elevation request. -/
inductive ElevOutcome
  | granted
  | refused
deriving DecidableEq, Repr

/-- Observable outcome of one `execute_elevated_script` run, tracking the
temp-directory artifacts it leaves behind. -/
structure ElevatedScriptTrace where
  /-- the function returned `Ok(())` -/
  ok : Bool
  /-- the batch script file was written into the temp directory -/
  scriptWritten : Bool
  /-- the script file was removed before returning (no path does) -/
  scriptRemovedAfter : Bool
  /-- the log file was removed before returning (no path does) -/
  logRemovedAfter : Bool
deriving DecidableEq, Repr

/-- `execute_elevated_script` (commands/service.rs lines 18–59):
`writeOk` is whether writing the script file succeeds; `elev` is the
elevation-request outcome; `logHasError` is whether the final read of the
log file contains the `ERROR:` marker. -/
def execute_elevated_script (writeOk : Bool) (elev : ElevOutcome) (logHasError : Bool) :
    ElevatedScriptTrace :=
  if writeOk then
    match elev with
    | .refused =>
      { ok := false, scriptWritten := true, scriptRemovedAfter := false,
        logRemovedAfter := false }
    | .granted =>
      if logHasError then
        { ok := false, scriptWritten := true, scriptRemovedAfter := false,
          logRemovedAfter := false }
      else
        { ok := true, scriptWritten := true, scriptRemovedAfter := false,
          logRemovedAfter := false }
  else
    { ok := false, scriptWritten := false, scriptRemovedAfter := false,
      logRemovedAfter := false }

/-- Observable outcome of one privileged lifecycle command. -/
structure ServiceOpTrace where
  /-- the command returned `Ok(())` -/
  ok : Bool
  /-- the previous run's log file was deleted before the operation began
  (the `let _ = std::fs::remove_file(&log_path)` line) -/
  oldLogRemovedBefore : Bool
  /-- the inner `execute_elevated_script` trace -/
  script : ElevatedScriptTrace
deriving DecidableEq, Repr

/-- `install_service` (commands/service.rs lines 141–217): fails before
touching the filesystem when the service executable is absent; otherwise
removes the old log, runs the install script, and fails unless the
re-queried status shows the service installed. -/
def install_service (exeExists writeOk : Bool) (elev : ElevOutcome)
    (logHasError installedAfter : Bool) : ServiceOpTrace :=
  if exeExists then
    let s := execute_elevated_script writeOk elev logHasError
    if s.ok then
      if installedAfter then
        { ok := true, oldLogRemovedBefore := true, script := s }
      else
        { ok := false, oldLogRemovedBefore := true, script := s }
    else
      { ok := false, oldLogRemovedBefore := true, script := s }
  else
    { ok := false, oldLogRemovedBefore := false,
      script := { ok := false, scriptWritten := false, scriptRemovedAfter := false,
                  logRemovedAfter := false } }

/-- `uninstall_service` (commands/service.rs lines 221–278): removes the
old log, runs the uninstall script, and fails if the re-queried status
still shows the service installed. -/
def uninstall_service (writeOk : Bool) (elev : ElevOutcome)
    (logHasError installedAfter : Bool) : ServiceOpTrace :=
  let s := execute_elevated_script writeOk elev logHasError
  if s.ok then
    if installedAfter then
      { ok := false, oldLogRemovedBefore := true, script := s }
    else
      { ok := true, oldLogRemovedBefore := true, script := s }
  else
    { ok := false, oldLogRemovedBefore := true, script := s }

/-- `start_service` (commands/service.rs lines 282–336): removes the old
log, runs the start script, and fails unless the re-queried status shows
the service running. -/
def start_service (writeOk : Bool) (elev : ElevOutcome)
    (logHasError runningAfter : Bool) : ServiceOpTrace :=
  let s := execute_elevated_script writeOk elev logHasError
  if s.ok then
    if runningAfter then
      { ok := true, oldLogRemovedBefore := true, script := s }
    else
      { ok := false, oldLogRemovedBefore := true, script := s }
  else
    { ok := false, oldLogRemovedBefore := true, script := s }

/-- `stop_service` (commands/service.rs lines 340–394): removes the old
log, runs the stop script, and fails if the re-queried status still shows
the service running. -/
def stop_service (writeOk : Bool) (elev : ElevOutcome)
    (logHasError runningAfter : Bool) : ServiceOpTrace :=
  let s := execute_elevated_script writeOk elev logHasError
  if s.ok then
    if runningAfter then
      { ok := false, oldLogRemovedBefore := true, script := s }
    else
      { ok := true, oldLogRemovedBefore := true, script := s }
  else
    { ok := false, oldLogRemovedBefore := true, script := s }

/-! ### Claim theorems -/

/-- Helper: unfolding the `run_service` loop at a crash that stays within
the restart bound and whose relaunch succeeds. -/
theorem run_service_loop_crashed_cont (n : Nat) (c : Option Int) (rest : List LoopInput)
    (hb : ¬ MAX_RESTART_ATTEMPTS < n + 1) :
    run_service_loop n (LoopInput.crashed c true :: rest) =
      ((run_service_loop (n + 1) rest).1, (run_service_loop (n + 1) rest).2.1,
       (run_service_loop (n + 1) rest).2.2 + 1) := by
  simp [run_service_loop, hb]

/-- C1: a crash whose increment keeps the restart counter at or below
`MAX_RESTART_ATTEMPTS`, followed by a successful relaunch, returns the
supervision loop to the running/monitoring state (restart ordinal `n + 1 ≤`
bound); the crash that takes the counter to `MAX_RESTART_ATTEMPTS + 1`
makes the loop exit in the failed state with zero restart attempts,
whatever inputs would have followed. -/
theorem run_service_restart_within_bound (n : Nat) (c c' : Option Int) (ok : Bool)
    (rest : List LoopInput) (h : n + 1 ≤ MAX_RESTART_ATTEMPTS) :
    run_service_loop n [LoopInput.crashed c true] = (LoopStatus.running, n + 1, 1) ∧
    run_service_loop MAX_RESTART_ATTEMPTS (LoopInput.crashed c' ok :: rest) =
      (LoopStatus.exited LoopExit.failedMaxRestarts, MAX_RESTART_ATTEMPTS + 1, 0) := by
  constructor
  · have hb : ¬ MAX_RESTART_ATTEMPTS < n + 1 := by omega
    simp [run_service_loop, hb]
  · simp [run_service_loop, MAX_RESTART_ATTEMPTS]

/-- Witness for C1 at restart ordinal 3 (the bound) and at the crash that
takes the counter to 4. -/
theorem run_service_restart_within_bound_witness :
    run_service_loop 2 [LoopInput.crashed (some 1) true] = (LoopStatus.running, 3, 1) ∧
    run_service_loop MAX_RESTART_ATTEMPTS [LoopInput.crashed none false] =
      (LoopStatus.exited LoopExit.failedMaxRestarts, MAX_RESTART_ATTEMPTS + 1, 0) :=
  run_service_restart_within_bound 2 (some 1) none false [] (by decide)

/-- C7: from any reachable counter value `n ≤ MAX_RESTART_ATTEMPTS`, over
any input schedule, the restart counter never decreases (in particular no
crash and no successful restart resets it), never passes
`MAX_RESTART_ATTEMPTS + 1`, and whenever it has exceeded the bound the
loop has exited in the failed state.  Applied at every suffix of a run,
the first conjunct is monotonicity of the counter along the whole
session. -/
theorem run_service_counter_monotone (n : Nat) (inputs : List LoopInput)
    (h : n ≤ MAX_RESTART_ATTEMPTS) :
    n ≤ (run_service_loop n inputs).2.1 ∧
    (run_service_loop n inputs).2.1 ≤ MAX_RESTART_ATTEMPTS + 1 ∧
    (MAX_RESTART_ATTEMPTS < (run_service_loop n inputs).2.1 →
      (run_service_loop n inputs).1 = LoopStatus.exited LoopExit.failedMaxRestarts) := by
  induction inputs generalizing n with
  | nil =>
    refine ⟨le_refl n, by simpa [run_service_loop] using by omega, fun hc => ?_⟩
    simp only [run_service_loop] at hc
    omega
  | cons i rest ih =>
    cases i with
    | shutdown =>
      refine ⟨le_refl n, by simpa [run_service_loop] using by omega, fun hc => ?_⟩
      simp only [run_service_loop] at hc
      omega
    | crashed c ok =>
      by_cases hb : MAX_RESTART_ATTEMPTS < n + 1
      · simp [run_service_loop, hb]
        omega
      · cases ok with
        | false =>
          simp [run_service_loop, hb]
          omega
        | true =>
          obtain ⟨ih1, ih2, ih3⟩ := ih (n + 1) (by omega)
          rw [run_service_loop_crashed_cont n c rest hb]
          exact ⟨Nat.le_trans (Nat.le_succ n) ih1, ih2, ih3⟩

/-- Witness for C7: four consecutive crashes with successful relaunches
from counter 0 drive the counter to 4 and the loop into the failed
state. -/
theorem run_service_counter_monotone_witness :
    0 ≤ (run_service_loop 0 [LoopInput.crashed none true, LoopInput.crashed none true,
      LoopInput.crashed none true, LoopInput.crashed none true]).2.1 ∧
    (run_service_loop 0 [LoopInput.crashed none true, LoopInput.crashed none true,
      LoopInput.crashed none true, LoopInput.crashed none true]).2.1 ≤
      MAX_RESTART_ATTEMPTS + 1 ∧
    (MAX_RESTART_ATTEMPTS < (run_service_loop 0 [LoopInput.crashed none true,
      LoopInput.crashed none true, LoopInput.crashed none true,
      LoopInput.crashed none true]).2.1 →
      (run_service_loop 0 [LoopInput.crashed none true, LoopInput.crashed none true,
        LoopInput.crashed none true, LoopInput.crashed none true]).1 =
        LoopStatus.exited LoopExit.failedMaxRestarts) :=
  run_service_counter_monotone 0 [LoopInput.crashed none true, LoopInput.crashed none true,
    LoopInput.crashed none true, LoopInput.crashed none true] (by decide)

/-- C3: in each iteration of the monitoring loop the non-blocking shutdown
check precedes the exit check: any pending signal (received value or
disconnected channel) yields `Shutdown` regardless of the process poll —
even when the process has exited in the same instant — and a `Crashed`
report can only arise from an iteration whose signal channel was empty.
The third conjunct lifts this to `wait_for_shutdown_or_crash`. -/
theorem signal_priority (sig : SignalPoll) (proc : ProcPoll) (c : Option Int)
    (rest : List (SignalPoll × ProcPoll)) :
    (sig ≠ SignalPoll.empty → waitStep sig proc = some ServerEvent.Shutdown) ∧
    (waitStep sig proc = some (ServerEvent.Crashed c) → sig = SignalPoll.empty) ∧
    (sig ≠ SignalPoll.empty →
      wait_for_shutdown_or_crash ((sig, proc) :: rest) = some ServerEvent.Shutdown) := by
  cases sig <;> cases proc <;> simp [waitStep, wait_for_shutdown_or_crash]

/-- Witness for C3: a signal pending in the same iteration in which the
child has exited still reports `Shutdown`, not a crash. -/
theorem signal_priority_witness :
    waitStep SignalPoll.received (ProcPoll.exited (some 1)) = some ServerEvent.Shutdown ∧
    wait_for_shutdown_or_crash [(SignalPoll.received, ProcPoll.exited (some 1))] =
      some ServerEvent.Shutdown :=
  ⟨(signal_priority SignalPoll.received (ProcPoll.exited (some 1)) none []).1 (by decide),
   (signal_priority SignalPoll.received (ProcPoll.exited (some 1)) none []).2.2 (by decide)⟩

/-- C4: the readiness poller issues at most `max_attempts` probes; if all
`max_attempts` probes fail it returns `false` having issued exactly
`max_attempts` probes; and if probe `j` is the first to succeed it returns
`true` on that iteration, having issued exactly `j` probes and no more. -/
theorem wait_for_server_spec (probe : Nat → Bool) (m j : Nat) :
    (wait_for_server probe m).2 ≤ m ∧
    ((∀ k, 1 ≤ k → k ≤ m → probe k = false) → wait_for_server probe m = (false, m)) ∧
    (1 ≤ j → j ≤ m → probe j = true → (∀ k, 1 ≤ k → k < j → probe k = false) →
      wait_for_server probe m = (true, j)) := by
  refine ⟨wait_for_server_from_snd_le probe m 1, ?_, ?_⟩
  · intro h
    exact wait_for_server_from_all_false probe m 1 (fun k hk1 hk2 => h k hk1 (by omega))
  · intro h1 h2 ht hf
    have hft := wait_for_server_from_first_true probe m 1 j h1 (by omega) ht hf
    have e : j + 1 - 1 = j := by omega
    show wait_for_server_from probe 1 m = (true, j)
    rw [hft, e]

/-- Witness for C4: with 3 attempts allowed and the probe first succeeding
on attempt 2, polling stops at probe 2 with `true`; with every probe
failing, 3 probes are issued and the result is `false`. -/
theorem wait_for_server_spec_witness :
    wait_for_server (fun k => decide (k = 2)) 3 = (true, 2) ∧
    wait_for_server (fun _ => false) 3 = (false, 3) := by
  constructor
  · exact (wait_for_server_spec (fun k => decide (k = 2)) 3 2).2.2 (by decide) (by decide)
      (by decide) (fun k hk1 hk2 => by
        have hk : k = 1 := by omega
        subst hk
        decide)
  · exact (wait_for_server_spec (fun _ => false) 3 0).2.1 (fun k hk1 hk2 => rfl)

/-- C2 counterexample: in `stop_sidecar`, when the graceful-shutdown
request fails (non-success response or transport failure), the request was
issued and the child is killed, but the grace-period sleep is skipped
entirely — the claim that the supervisor waits the grace period on every
shutdown path regardless of the response is false. -/
theorem stop_sidecar_skips_grace_wait_on_failed_request :
    (stop_sidecar { usingService := false, hasChild := true, backendPort := 4096 }
      false).2.requestSent = true ∧
    (stop_sidecar { usingService := false, hasChild := true, backendPort := 4096 }
      false).2.killIssued = true ∧
    (stop_sidecar { usingService := false, hasChild := true, backendPort := 4096 }
      false).2.graceWaitSecs = 0 := by
  decide

/-- C2 amended: in the service binary's `stop_server_gracefully` the
3-second grace wait does occur after the request regardless of the
response; in the desktop `stop_sidecar` the 2-second grace wait occurs
only when the graceful request reported success, and on a non-success or
failed request the child is killed immediately with no wait. -/
theorem grace_wait_per_shutdown_path (sendOk : Bool) (tw : TryWaitResult)
    (st : AppState) (g : Bool) (h1 : st.usingService = false) (h2 : st.hasChild = true) :
    (stop_server_gracefully true sendOk tw).requestSent = true ∧
    (stop_server_gracefully true sendOk tw).graceWaitSecs = 3 ∧
    (stop_sidecar st g).2.requestSent = true ∧
    (stop_sidecar st g).2.graceWaitSecs = (if g then 2 else 0) ∧
    (stop_sidecar st g).2.killIssued = true := by
  cases tw <;> cases g <;> simp [stop_server_gracefully, stop_sidecar, h1, h2]

/-- Witness for the amended C2: a failed graceful request still gets the
3-second wait in the service binary, but a zero-second wait in the
desktop path. -/
theorem grace_wait_per_shutdown_path_witness :
    (stop_server_gracefully true false TryWaitResult.stillRunning).graceWaitSecs = 3 ∧
    (stop_sidecar { usingService := false, hasChild := true, backendPort := 4096 }
      false).2.graceWaitSecs = 0 :=
  ⟨(grace_wait_per_shutdown_path false TryWaitResult.stillRunning
      { usingService := false, hasChild := true, backendPort := 4096 } false rfl rfl).2.1,
   (grace_wait_per_shutdown_path false TryWaitResult.stillRunning
      { usingService := false, hasChild := true, backendPort := 4096 } false rfl rfl).2.2.2.1⟩

/-- C5 counterexample: on the shutdown path where the post-grace
`try_wait` status check fails, `stop_server_gracefully` issues the kill
but returns without any blocking wait for exit confirmation — the claim
that every forced-termination path blocks until the child is reaped is
false. -/
theorem kill_without_reap_on_check_error :
    (stop_server_gracefully true true TryWaitResult.errored).killIssued = true ∧
    (stop_server_gracefully true true TryWaitResult.errored).reaped = false := by
  decide

/-- C5 amended: forced termination blocks until the OS confirms exit only
on the still-running path of `stop_server_gracefully`; on its
status-check-error path the kill is issued without the blocking wait, and
the desktop `stop_sidecar` issues its kill with no subsequent wait for
exit confirmation at all. -/
theorem force_terminate_reap_per_path (clientOk sendOk g : Bool) :
    (stop_server_gracefully clientOk sendOk TryWaitResult.stillRunning).killIssued = true ∧
    (stop_server_gracefully clientOk sendOk TryWaitResult.stillRunning).reaped = true ∧
    (stop_server_gracefully clientOk sendOk TryWaitResult.errored).killIssued = true ∧
    (stop_server_gracefully clientOk sendOk TryWaitResult.errored).reaped = false ∧
    (stop_sidecar { usingService := false, hasChild := true, backendPort := 4096 }
      g).2.killIssued = true ∧
    (stop_sidecar { usingService := false, hasChild := true, backendPort := 4096 }
      g).2.waitedForExit = false := by
  cases clientOk <;> cases sendOk <;> cases g <;> decide

/-- C6 counterexample: with the spawn succeeding and every readiness probe
failing, both `start_server_process` and `start_sidecar` report failure
with the spawned child left unterminated — the claim that the child is
forcibly terminated before the operation returns is false. -/
theorem readiness_timeout_child_not_killed :
    (start_server_process true (fun _ => false)).ok = false ∧
    (start_server_process true (fun _ => false)).spawned = true ∧
    (start_server_process true (fun _ => false)).killIssued = false ∧
    (start_sidecar { usingService := false, hasChild := false, backendPort := 4096 }
      false (fun _ => false) true (fun _ => false)).result = none ∧
    (start_sidecar { usingService := false, hasChild := false, backendPort := 4096 }
      false (fun _ => false) true (fun _ => false)).spawnedChild = true ∧
    (start_sidecar { usingService := false, hasChild := false, backendPort := 4096 }
      false (fun _ => false) true (fun _ => false)).killedChild = false := by
  decide

/-- C6 amended: when the readiness poll after spawning exhausts its
attempts, the start operation reports failure but does not terminate the
spawned child: the service binary drops the handle without a kill, and the
desktop keeps the handle stored in state (`hasChild` remains set) without
a kill. -/
theorem readiness_timeout_reports_failure_without_kill (probe : Nat → Bool) (st : AppState)
    (h : ∀ k, 1 ≤ k → k ≤ 30 → probe k = false) :
    (start_server_process true probe).ok = false ∧
    (start_server_process true probe).spawned = true ∧
    (start_server_process true probe).killIssued = false ∧
    (start_sidecar st false probe true probe).result = none ∧
    (start_sidecar st false probe true probe).spawnedChild = true ∧
    (start_sidecar st false probe true probe).killedChild = false ∧
    (start_sidecar st false probe true probe).stateAfter.hasChild = true := by
  have h30 : wait_for_server probe 30 = (false, 30) :=
    wait_for_server_from_all_false probe 30 1 (fun k hk1 hk2 => h k hk1 (by omega))
  have hpre : wait_for_server probe 2 = (false, 2) :=
    wait_for_server_from_all_false probe 2 1 (fun k hk1 hk2 => h k hk1 (by omega))
  simp [start_server_process, start_sidecar, h30, hpre]

/-- Witness for the amended C6 with every probe failing. -/
theorem readiness_timeout_reports_failure_without_kill_witness :
    (start_server_process true (fun _ => false)).ok = false ∧
    (start_server_process true (fun _ => false)).spawned = true ∧
    (start_server_process true (fun _ => false)).killIssued = false ∧
    (start_sidecar { usingService := false, hasChild := false, backendPort := 4096 }
      false (fun _ => false) true (fun _ => false)).result = none ∧
    (start_sidecar { usingService := false, hasChild := false, backendPort := 4096 }
      false (fun _ => false) true (fun _ => false)).spawnedChild = true ∧
    (start_sidecar { usingService := false, hasChild := false, backendPort := 4096 }
      false (fun _ => false) true (fun _ => false)).killedChild = false ∧
    (start_sidecar { usingService := false, hasChild := false, backendPort := 4096 }
      false (fun _ => false) true (fun _ => false)).stateAfter.hasChild = true :=
  readiness_timeout_reports_failure_without_kill (fun _ => false)
    { usingService := false, hasChild := false, backendPort := 4096 }
    (fun _ _ _ => rfl)

/-- C8: when the pre-launch probe finds the external service healthy,
`start_sidecar` records external-service mode (port 4097) and returns
without spawning, and any later `stop_sidecar` in external-service mode
returns success, leaves the state unchanged, and issues no kill. -/
theorem external_mode_no_spawn_no_kill (st st' : AppState)
    (preProbe readyProbe : Nat → Bool) (spawnOk g : Bool)
    (h : st'.usingService = true) :
    (start_sidecar st true preProbe spawnOk readyProbe).spawnedChild = false ∧
    (start_sidecar st true preProbe spawnOk readyProbe).killedChild = false ∧
    (start_sidecar st true preProbe spawnOk readyProbe).result = some 4097 ∧
    (start_sidecar st true preProbe spawnOk readyProbe).stateAfter.usingService = true ∧
    (start_sidecar st true preProbe spawnOk readyProbe).stateAfter.backendPort = 4097 ∧
    (stop_sidecar st' g).1 = st' ∧
    (stop_sidecar st' g).2.outcomeOk = true ∧
    (stop_sidecar st' g).2.killIssued = false := by
  simp [start_sidecar, stop_sidecar, h]

/-- Witness for C8 at a fresh state and an attached external-mode state. -/
theorem external_mode_no_spawn_no_kill_witness :
    (start_sidecar { usingService := false, hasChild := false, backendPort := 4096 }
      true (fun _ => false) true (fun _ => false)).spawnedChild = false ∧
    (start_sidecar { usingService := false, hasChild := false, backendPort := 4096 }
      true (fun _ => false) true (fun _ => false)).killedChild = false ∧
    (start_sidecar { usingService := false, hasChild := false, backendPort := 4096 }
      true (fun _ => false) true (fun _ => false)).result = some 4097 ∧
    (start_sidecar { usingService := false, hasChild := false, backendPort := 4096 }
      true (fun _ => false) true (fun _ => false)).stateAfter.usingService = true ∧
    (start_sidecar { usingService := false, hasChild := false, backendPort := 4096 }
      true (fun _ => false) true (fun _ => false)).stateAfter.backendPort = 4097 ∧
    (stop_sidecar { usingService := true, hasChild := false, backendPort := 4097 }
      true).1 = { usingService := true, hasChild := false, backendPort := 4097 } ∧
    (stop_sidecar { usingService := true, hasChild := false, backendPort := 4097 }
      true).2.outcomeOk = true ∧
    (stop_sidecar { usingService := true, hasChild := false, backendPort := 4097 }
      true).2.killIssued = false :=
  external_mode_no_spawn_no_kill
    { usingService := false, hasChild := false, backendPort := 4096 }
    { usingService := true, hasChild := false, backendPort := 4097 }
    (fun _ => false) (fun _ => false) true true rfl

/-- C9 counterexample: a fully successful install leaves both the batch
script and the log file in the temp directory when it returns — the claim
that the artifacts are removed on all exit paths is false already on the
success path. -/
theorem install_success_leaves_artifacts :
    (install_service true true ElevOutcome.granted false true).ok = true ∧
    (install_service true true ElevOutcome.granted false true).script.scriptWritten = true ∧
    (install_service true true ElevOutcome.granted false true).script.scriptRemovedAfter
      = false ∧
    (install_service true true ElevOutcome.granted false true).script.logRemovedAfter
      = false := by
  decide

/-- C9 amended: none of the four privileged lifecycle operations removes
its script or log artifacts after completion or timeout on any exit path;
the only removal any of them performs is deleting the previous run's log
file before the operation begins (and install performs no removal at all
when the service executable is missing). -/
theorem service_ops_no_artifact_cleanup (exeExists writeOk logErr stat : Bool)
    (elev : ElevOutcome) :
    (install_service exeExists writeOk elev logErr stat).script.scriptRemovedAfter = false ∧
    (install_service exeExists writeOk elev logErr stat).script.logRemovedAfter = false ∧
    (uninstall_service writeOk elev logErr stat).script.scriptRemovedAfter = false ∧
    (uninstall_service writeOk elev logErr stat).script.logRemovedAfter = false ∧
    (start_service writeOk elev logErr stat).script.scriptRemovedAfter = false ∧
    (start_service writeOk elev logErr stat).script.logRemovedAfter = false ∧
    (stop_service writeOk elev logErr stat).script.scriptRemovedAfter = false ∧
    (stop_service writeOk elev logErr stat).script.logRemovedAfter = false ∧
    (uninstall_service writeOk elev logErr stat).oldLogRemovedBefore = true ∧
    (start_service writeOk elev logErr stat).oldLogRemovedBefore = true ∧
    (stop_service writeOk elev logErr stat).oldLogRemovedBefore = true ∧
    (install_service true writeOk elev logErr stat).oldLogRemovedBefore = true ∧
    (install_service false writeOk elev logErr stat).oldLogRemovedBefore = false := by
  cases exeExists <;> cases writeOk <;> cases logErr <;> cases stat <;> cases elev <;> decide

/-- C10: once the supervisor no longer holds a child handle, every further
`stop_sidecar` call is a no-op: it returns success, issues no kill, and
leaves the state unchanged — shown for two consecutive invocations. -/
theorem stop_sidecar_idempotent_after_stop (st : AppState) (g1 g2 : Bool)
    (h : st.hasChild = false) :
    (stop_sidecar st g1).1 = st ∧
    (stop_sidecar st g1).2.outcomeOk = true ∧
    (stop_sidecar st g1).2.killIssued = false ∧
    (stop_sidecar (stop_sidecar st g1).1 g2).1 = st ∧
    (stop_sidecar (stop_sidecar st g1).1 g2).2.outcomeOk = true ∧
    (stop_sidecar (stop_sidecar st g1).1 g2).2.killIssued = false := by
  cases hu : st.usingService <;> simp [stop_sidecar, hu, h]

/-- Witness for C10 at a stopped self-managed supervisor. -/
theorem stop_sidecar_idempotent_after_stop_witness :
    (stop_sidecar { usingService := false, hasChild := false, backendPort := 4096 }
      true).1 = { usingService := false, hasChild := false, backendPort := 4096 } ∧
    (stop_sidecar { usingService := false, hasChild := false, backendPort := 4096 }
      true).2.outcomeOk = true ∧
    (stop_sidecar { usingService := false, hasChild := false, backendPort := 4096 }
      true).2.killIssued = false ∧
    (stop_sidecar
      (stop_sidecar { usingService := false, hasChild := false, backendPort := 4096 }
        true).1 false).1 =
      { usingService := false, hasChild := false, backendPort := 4096 } ∧
    (stop_sidecar
      (stop_sidecar { usingService := false, hasChild := false, backendPort := 4096 }
        true).1 false).2.outcomeOk = true ∧
    (stop_sidecar
      (stop_sidecar { usingService := false, hasChild := false, backendPort := 4096 }
        true).1 false).2.killIssued = false :=
  stop_sidecar_idempotent_after_stop
    { usingService := false, hasChild := false, backendPort := 4096 } true false rfl

end Zerobyte
